import Mathlib

/-!
Verification of the ledger engine of the Rendimento income-tracking
application (src/app.py).

Modelling conventions of the shallow embedding:

* A cell of the `Data` column is modelled after the `pd.to_datetime(..., errors='coerce')`
  coercion: `none` stands for NaT (an unparseable date), `some d` for a parsed
  calendar date.  Likewise a `Valor` cell is `none` (NaN, non-numeric) or
  `some v` with `v : ℚ`; amounts are modelled with exact rationals.
* A pandas DataFrame is a list of rows plus two flags recording whether the
  optional columns `Categoria` / `Descrição` are present; the required columns
  `Data` and `Valor` are always present in the frames the program builds.
* The file system is a map from structured paths (lists of segments, the
  shape produced by `os.path.join`) to stored frames.  Writing a CSV stores
  the frame; reading it back re-parses the same cell values, so the
  store holds frames directly.  `os.makedirs` only creates directories and
  does not affect file contents, so it is not reflected in the store.
* Python exceptions for disk I/O failures are outside the model (the model's
  operations are total), matching the spec's treatment of `StorageIOError`
  as an external event.
-/

namespace Rendimento

/-- A parsed calendar date, the result of a successful `pd.to_datetime` coercion. -/
structure Date where
  year : Nat
  month : Nat
  day : Nat
deriving DecidableEq, Repr

/-- Boolean lexicographic order on dates, mirroring pandas ascending datetime order. -/
def dateLe (a b : Date) : Bool :=
  decide (a.year < b.year) ||
    (decide (a.year = b.year) && (decide (a.month < b.month) ||
      (decide (a.month = b.month) && decide (a.day ≤ b.day))))

/-- One row of the rendimentos table.  `data` and `valor` are the coerced
`Data` / `Valor` cells (`none` = NaT / NaN); `categoria` and `descricao` are
the text cells of the optional columns (meaningful only when the enclosing
frame has the column). -/
structure Row where
  data : Option Date
  valor : Option ℚ
  categoria : String
  descricao : String
deriving DecidableEq, Repr

/-- A DataFrame with the ledger schema: the two optional columns may be
absent (`hasCategoria` / `hasDescricao` false); `Data` and `Valor` are always
present. -/
structure DataFrame where
  hasCategoria : Bool
  hasDescricao : Bool
  rows : List Row
deriving DecidableEq, Repr

/-- The frame `pd.DataFrame(columns=['Data', 'Valor', 'Categoria', 'Descrição'])`:
an empty frame with all four columns present. -/
def emptyFrame : DataFrame := ⟨true, true, []⟩

/-- app.py lines 154-158 (`validar_dataframe`): every required column absent
from the frame is synthesized with `df[col] = ''`, i.e. every cell of a
synthesized column is the empty string. -/
def ensureCols (df : DataFrame) : DataFrame :=
  ⟨true, true, df.rows.map fun r =>
    { r with
      categoria := if df.hasCategoria then r.categoria else ""
      descricao := if df.hasDescricao then r.descricao else "" }⟩

/-- app.py lines 161-168: the row survives the coercions followed by
`dropna(subset=['Data', 'Valor'])` and the `df[df['Valor'] >= 0]` filter
exactly when its date parsed and its amount parsed to a non-negative number. -/
def keepRow (r : Row) : Bool :=
  r.data.isSome &&
    (match r.valor with
     | some v => decide (0 ≤ v)
     | none => false)

/-- Function `AnalisadorDados.validar_dataframe` (app.py lines 148-173): an empty frame
is replaced by the canonical four-column empty frame; otherwise the optional
columns are synthesized if missing, types are coerced, rows with unparseable
`Data` or `Valor` are dropped, negative amounts are filtered out, and the
index is reset (identity on the row list). -/
def validar_dataframe (df : DataFrame) : DataFrame :=
  if df.rows.isEmpty then emptyFrame
  else
    let df1 := ensureCols df
    ⟨df1.hasCategoria, df1.hasDescricao, df1.rows.filter keepRow⟩

/-- Number of rows a run of `validar_dataframe` drops from its input. -/
def droppedCount (df : DataFrame) : Nat :=
  df.rows.length - (validar_dataframe df).rows.length

-- ======================= helper lemmas: validator =======================

theorem keepRow_of_mem_validar {df : DataFrame} {r : Row}
    (h : r ∈ (validar_dataframe df).rows) : keepRow r = true := by
  unfold validar_dataframe at h
  by_cases he : df.rows.isEmpty
  · simp [he, emptyFrame] at h
  · simp only [he, if_false] at h
    exact (List.mem_filter.mp h).2

theorem validar_flags (df : DataFrame) :
    (validar_dataframe df).hasCategoria = true ∧
      (validar_dataframe df).hasDescricao = true := by
  unfold validar_dataframe
  by_cases he : df.rows.isEmpty <;> simp [he, emptyFrame, ensureCols]

/-- Validation is the identity on its own output. -/
theorem validar_idem (df : DataFrame) :
    validar_dataframe (validar_dataframe df) = validar_dataframe df := by
  by_cases he : df.rows.isEmpty
  · have h1 : validar_dataframe df = emptyFrame := by
      unfold validar_dataframe; simp [he]
    rw [h1]
    unfold validar_dataframe; simp [emptyFrame]
  · have h1 : validar_dataframe df =
        ⟨true, true, (ensureCols df).rows.filter keepRow⟩ := by
      unfold validar_dataframe; simp [he, ensureCols]
    rw [h1]
    by_cases h2 : ((ensureCols df).rows.filter keepRow).isEmpty
    · unfold validar_dataframe
      simp only [h2, if_true]
      rw [List.isEmpty_iff] at h2
      simp [emptyFrame, h2]
    · unfold validar_dataframe
      simp only [h2, if_false]
      have hec : ensureCols ⟨true, true, (ensureCols df).rows.filter keepRow⟩ =
          ⟨true, true, (ensureCols df).rows.filter keepRow⟩ := by
        simp [ensureCols]
      rw [hec]
      have hfil : (((ensureCols df).rows.filter keepRow).filter keepRow) =
          ((ensureCols df).rows.filter keepRow) :=
        List.filter_eq_self.mpr (fun a ha => (List.mem_filter.mp ha).2)
      simp [hfil]

/-- Replacing the text cells of a row does not change whether `keepRow` keeps it. -/
theorem keepRow_set_text (r : Row) (c d : String) :
    keepRow { r with categoria := c, descricao := d } = keepRow r := rfl

-- ======================= concrete frames used by witnesses =======================

/-- A fully valid row: 2024-01-05, amount 10. -/
def rowOk : Row := ⟨some ⟨2024, 1, 5⟩, some 10, "Outros", ""⟩

/-- A one-row frame with all columns present. -/
def frameOk : DataFrame := ⟨true, true, [rowOk]⟩

-- ======================= claim C3 =======================

/-- C3: every row in the output of `validar_dataframe` has a parseable
calendar date and a numeric, non-negative amount; a row with an unparseable
date, a non-numeric amount, or a negative amount is never present in a
validated ledger. -/
theorem spec_c3_validated_rows_valid (df : DataFrame) (r : Row)
    (h : r ∈ (validar_dataframe df).rows) :
    (∃ d, r.data = some d) ∧ ∃ v, r.valor = some v ∧ 0 ≤ v := by
  have hk := keepRow_of_mem_validar h
  unfold keepRow at hk
  cases hd : r.data with
  | none => rw [hd] at hk; simp at hk
  | some d =>
    cases hv : r.valor with
    | none => rw [hd, hv] at hk; simp at hk
    | some v =>
      rw [hd, hv] at hk
      simp at hk
      exact ⟨⟨d, rfl⟩, v, rfl, hk⟩

/-- Witness for C3 at a concrete frame and row. -/
theorem spec_c3_witness :
    rowOk ∈ (validar_dataframe frameOk).rows ∧
      ((∃ d, rowOk.data = some d) ∧ ∃ v, rowOk.valor = some v ∧ 0 ≤ v) :=
  ⟨by decide, spec_c3_validated_rows_valid frameOk rowOk (by decide)⟩

-- ======================= claim C4 =======================

/-- C4: the validator is idempotent: validating the clean ledger produced by
`validar_dataframe` returns it unchanged, and the second pass drops zero rows. -/
theorem spec_c4_validar_idempotent (df : DataFrame) :
    validar_dataframe (validar_dataframe df) = validar_dataframe df ∧
      droppedCount (validar_dataframe df) = 0 := by
  refine ⟨validar_idem df, ?_⟩
  unfold droppedCount
  rw [validar_idem df]
  omega

-- ======================= claim C8 =======================

/-- A one-row frame whose optional columns `Categoria` and `Descrição` are
absent; the row's date and amount are valid. -/
def frameNoOpt : DataFrame := ⟨false, false, [rowOk]⟩

/-- C8 counterexample: on a frame missing the optional columns, the validator
does keep the valid row (it is not dropped for the missing columns), but it
synthesizes the row's category as the empty string, not as the documented
default "Uncategorized". -/
theorem spec_c8_cex :
    (validar_dataframe frameNoOpt).rows.length = 1 ∧
      (validar_dataframe frameNoOpt).rows.map Row.categoria = [""] ∧
      (validar_dataframe frameNoOpt).rows.map Row.categoria ≠ ["Uncategorized"] := by
  decide

/-- The number of surviving rows depends only on `keepRow`, not on the
column-presence flags. -/
theorem validar_rows_length (hasC hasD : Bool) (rows : List Row) :
    (validar_dataframe ⟨hasC, hasD, rows⟩).rows.length =
      (rows.filter keepRow).length := by
  by_cases he : rows.isEmpty
  · rw [List.isEmpty_iff] at he
    subst he
    simp [validar_dataframe, emptyFrame]
  · unfold validar_dataframe ensureCols
    rw [if_neg (by simpa using he)]
    dsimp only
    rw [List.filter_map, List.length_map]
    exact congrArg List.length (List.filter_congr (fun a _ => rfl))

/-- C8 amended: the validator never drops a row solely because the optional
columns are missing — the surviving row count does not depend on the
column-presence flags — and, independently for each optional column, a
present column's cells are kept while an absent one is synthesized as the
empty string (not "Uncategorized"); exactly the rows whose date and amount
are valid survive. -/
theorem spec_c8_missing_optional_columns (hasC hasD : Bool) (rows : List Row) :
    (validar_dataframe ⟨hasC, hasD, rows⟩).rows =
      (rows.map fun r =>
        { r with
          categoria := if hasC then r.categoria else ""
          descricao := if hasD then r.descricao else "" }).filter keepRow ∧
    (validar_dataframe ⟨hasC, hasD, rows⟩).rows.length =
      (validar_dataframe ⟨true, true, rows⟩).rows.length := by
  constructor
  · by_cases he : rows.isEmpty
    · rw [List.isEmpty_iff] at he
      subst he
      simp [validar_dataframe, emptyFrame]
    · unfold validar_dataframe ensureCols
      rw [if_neg (by simpa using he)]
  · rw [validar_rows_length, validar_rows_length]

-- ======================= storage layer =======================

/-- A file-system path, as the list of segments that `os.path.join` glues
together with the separator. -/
abbrev Path : Type := List String

/-- Constant `PASTA_DADOS` (app.py line 24). -/
def PASTA_DADOS : String := "dados_usuarios"

/-- Function `GerenciadorDados.get_caminho_usuario` (app.py lines 83-85). -/
def get_caminho_usuario (nome_usuario : String) : Path :=
  [PASTA_DADOS, nome_usuario]

/-- Function `GerenciadorDados.get_caminho_rendimentos` (app.py lines 88-90). -/
def get_caminho_rendimentos (nome_usuario : String) : Path :=
  [PASTA_DADOS, nome_usuario, "rendimentos.csv"]

/-- The durable state: what frame, if any, each path currently stores. -/
def Store : Type := Path → Option DataFrame

/-- Writing a CSV file at a path. -/
def writeStore (s : Store) (p : Path) (df : DataFrame) : Store :=
  fun q => if q = p then some df else s q

/-- The shared cleaning step of `salvar_dados` and `carregar_dados`
(app.py lines 100-102 and 120-122): coerce `Data` and `Valor` (identity on
the already-coerced model cells) and drop the rows where either is missing.
Negative amounts are NOT filtered here. -/
def dropnaDataValor (df : DataFrame) : DataFrame :=
  ⟨df.hasCategoria, df.hasDescricao,
    df.rows.filter fun r => r.data.isSome && r.valor.isSome⟩

/-- Function `GerenciadorDados.carregar_dados` (app.py lines 93-107): if the user's
file does not exist, or exists but holds an empty frame, return the canonical
empty four-column frame; otherwise coerce `Data`/`Valor` and drop rows where
either failed to parse.  No negative-amount filter and no optional-column
synthesis happens here. -/
def carregar_dados (s : Store) (nome_usuario : String) : DataFrame :=
  match s (get_caminho_rendimentos nome_usuario) with
  | none => emptyFrame
  | some df => if df.rows.isEmpty then emptyFrame else dropnaDataValor df

/-- Function `GerenciadorDados.salvar_dados` (app.py lines 110-128): replace an empty
input by the canonical empty frame, otherwise coerce and drop unparseable
rows, then write the result over the user's file with `to_csv` and return
`True`.  There is no emptiness check, no negative-amount filter, and no error
result other than the I/O failures that are outside this model. -/
def salvar_dados (s : Store) (nome_usuario : String) (df : DataFrame) :
    Store × Bool :=
  let df' := if df.rows.isEmpty then emptyFrame else dropnaDataValor df
  (writeStore s (get_caminho_rendimentos nome_usuario) df', true)

-- ======================= claim C1 =======================

/-- A row whose date parses but whose amount is -5.00. -/
def rowNeg : Row := ⟨some ⟨2024, 1, 5⟩, some (-5), "Outros", ""⟩

/-- A store in which user alice already has a persisted one-row ledger. -/
def storeAlice : Store :=
  writeStore (fun _ => none) (get_caminho_rendimentos "alice") frameOk

/-- C1 counterexample: saving a non-empty ledger whose single row has
amount -5.00 does not fail — `salvar_dados` returns `True` — and the user's
previously persisted file is replaced (indeed the negative row itself is
persisted, because `salvar_dados` never filters negative amounts and has no
`EmptyLedgerError`). -/
theorem spec_c1_cex :
    (salvar_dados storeAlice "alice" ⟨true, true, [rowNeg]⟩).2 = true ∧
      (salvar_dados storeAlice "alice" ⟨true, true, [rowNeg]⟩).1
          (get_caminho_rendimentos "alice") ≠
        storeAlice (get_caminho_rendimentos "alice") ∧
      (salvar_dados storeAlice "alice" ⟨true, true, [rowNeg]⟩).1
          (get_caminho_rendimentos "alice") =
        some ⟨true, true, [rowNeg]⟩ := by
  decide

/-- C1 amended: `salvar_dados` never fails with an `EmptyLedgerError` (no such
error exists in the code): for every input it returns `True` and overwrites
the user's file with the cleaned frame — the canonical empty frame for an
explicitly empty input, and otherwise the input with only unparseable-date or
non-numeric-amount rows dropped, so a row with amount -5.00 is kept and
persisted rather than stripped. -/
theorem spec_c1_save_always_writes (s : Store) (u : String) (df : DataFrame) :
    (salvar_dados s u df).2 = true ∧
      (salvar_dados s u df).1 (get_caminho_rendimentos u) =
        some (if df.rows.isEmpty then emptyFrame else dropnaDataValor df) := by
  unfold salvar_dados writeStore
  simp

-- ======================= claim C6 =======================

/-- Reading back the path just written returns the written frame. -/
theorem writeStore_same (s : Store) (p : Path) (df : DataFrame) :
    writeStore s p df p = some df := by
  unfold writeStore
  rw [if_pos rfl]

/-- Reading any other path is unaffected by a write. -/
theorem writeStore_other (s : Store) (p : Path) (df : DataFrame) (q : Path)
    (h : q ≠ p) : writeStore s p df q = s q := by
  unfold writeStore
  rw [if_neg h]

/-- Loading a user's data right after a frame was written at that user's path
yields the cleaning of the written frame. -/
theorem carregar_writeStore_same (s : Store) (u : String) (dfw : DataFrame) :
    carregar_dados (writeStore s (get_caminho_rendimentos u) dfw) u =
      if dfw.rows.isEmpty then emptyFrame else dropnaDataValor dfw := by
  unfold carregar_dados
  rw [writeStore_same]

/-- The cleaning step `dropnaDataValor` is idempotent. -/
theorem dropnaDataValor_idem (df : DataFrame) :
    dropnaDataValor (dropnaDataValor df) = dropnaDataValor df := by
  unfold dropnaDataValor
  congr 1
  exact List.filter_eq_self.mpr (fun a ha => (List.mem_filter.mp ha).2)

/-- C6: save-then-load round-trip fidelity: when `salvar_dados` succeeds, an
immediately following `carregar_dados` for the same user returns exactly the
rows that were saved — the input rows after the `Data`/`Valor` coercions with
unparseable rows dropped — in the same order. -/
theorem spec_c6_save_load_roundtrip (s : Store) (u : String) (df : DataFrame)
    (_h : (salvar_dados s u df).2 = true) :
    (carregar_dados (salvar_dados s u df).1 u).rows = (dropnaDataValor df).rows := by
  show (carregar_dados (writeStore s (get_caminho_rendimentos u)
      (if df.rows.isEmpty then emptyFrame else dropnaDataValor df)) u).rows =
    (dropnaDataValor df).rows
  by_cases he : df.rows.isEmpty
  · rw [if_pos he, carregar_writeStore_same]
    rw [List.isEmpty_iff] at he
    simp [emptyFrame, dropnaDataValor, he]
  · rw [if_neg he, carregar_writeStore_same]
    by_cases h2 : (dropnaDataValor df).rows.isEmpty
    · rw [if_pos h2]
      rw [List.isEmpty_iff] at h2
      simp [emptyFrame, h2]
    · rw [if_neg h2, dropnaDataValor_idem]

/-- Witness for C6 at a concrete store, user and frame. -/
theorem spec_c6_witness :
    (salvar_dados storeAlice "alice" frameOk).2 = true ∧
      (carregar_dados (salvar_dados storeAlice "alice" frameOk).1 "alice").rows =
        (dropnaDataValor frameOk).rows :=
  ⟨by decide, spec_c6_save_load_roundtrip storeAlice "alice" frameOk (by decide)⟩

-- ======================= claim C7 =======================

/-- A store in which user alice's file holds a legacy two-column frame whose
single row has a negative amount. -/
def storeNeg : Store :=
  writeStore (fun _ => none) (get_caminho_rendimentos "alice")
    ⟨false, false, [rowNeg]⟩

/-- C7 counterexample: `carregar_dados` does not route rows through the
Validator: loading a persisted file whose row has amount -5.00 returns that
row with its negative amount, and with the optional columns still absent —
the non-negative-amount and default-optional-column guarantees do not hold
for the result of a load; indeed the loaded frame is not even a fixed point
of `validar_dataframe` (the Validator would still drop its row). -/
theorem spec_c7_cex :
    (carregar_dados storeNeg "alice").rows = [rowNeg] ∧
      rowNeg.valor = some (-5) ∧ ¬ (0 : ℚ) ≤ -5 ∧
      (carregar_dados storeNeg "alice").hasCategoria = false ∧
      validar_dataframe (carregar_dados storeNeg "alice") ≠
        carregar_dados storeNeg "alice" := by
  decide

/-- C7 amended: for a user with no persisted file `carregar_dados` returns
the empty four-column frame rather than an error; for an existing file it
applies only the `Data`/`Valor` coercions and drops unparseable rows — it
does not apply `validar_dataframe`, so negative amounts survive and missing
optional columns are not synthesized (callers run the Validator separately). -/
theorem spec_c7_load_defaults (s : Store) (u : String) :
    (s (get_caminho_rendimentos u) = none → carregar_dados s u = emptyFrame) ∧
      (∀ df, s (get_caminho_rendimentos u) = some df →
        carregar_dados s u =
          (if df.rows.isEmpty then emptyFrame else dropnaDataValor df)) := by
  constructor
  · intro h
    unfold carregar_dados
    rw [h]
  · intro df h
    unfold carregar_dados
    rw [h]

/-- Witness for C7 at concrete stores. -/
theorem spec_c7_witness :
    carregar_dados (fun _ => none) "alice" = emptyFrame ∧
      carregar_dados storeNeg "alice" =
        (if (⟨false, false, [rowNeg]⟩ : DataFrame).rows.isEmpty then emptyFrame
          else dropnaDataValor ⟨false, false, [rowNeg]⟩) :=
  ⟨(spec_c7_load_defaults (fun _ => none) "alice").1 rfl,
    (spec_c7_load_defaults storeNeg "alice").2 ⟨false, false, [rowNeg]⟩ (by decide)⟩

-- ======================= claim C2: the file-system trace of a save =======================

/-- A file-system effect, in the order the code performs them. -/
inductive FsOp where
  | makedirs (p : Path)
  | writeFile (p : Path)
  | renameFile (src dst : Path)
deriving DecidableEq, Repr

/-- The sequence of file-system effects `salvar_dados` performs
(app.py lines 113-124): `os.makedirs(os.path.dirname(caminho), exist_ok=True)`
followed by a single `df.to_csv(caminho, index=False)` directly on the target
path.  No temporary file is written and no rename is performed. -/
def salvar_dados_ops (nome_usuario : String) : List FsOp :=
  [FsOp.makedirs (get_caminho_usuario nome_usuario),
   FsOp.writeFile (get_caminho_rendimentos nome_usuario)]

/-- The write-to-temporary-then-rename pattern the claim asserts: some
rename whose destination is the target path (and whose source is a different,
temporary path) occurs in the trace. -/
def usesTempThenRename (ops : List FsOp) (target : Path) : Bool :=
  ops.any fun op =>
    match op with
    | FsOp.renameFile src dst => decide (dst = target) && decide (src ≠ target)
    | _ => false

/-- C2 counterexample: the trace of a save for user alice contains no rename
onto the target at all; the target file itself is written directly. -/
theorem spec_c2_cex :
    usesTempThenRename (salvar_dados_ops "alice")
        (get_caminho_rendimentos "alice") = false ∧
      FsOp.writeFile (get_caminho_rendimentos "alice") ∈
        salvar_dados_ops "alice" := by
  decide

/-- C2 amended: for every user, the save operation creates the user's
directory and then writes the CSV directly in place at the target path; it
performs no write-to-temporary-location-then-rename, so the claimed
atomic-replace strategy is not implemented and a concurrent load is not
protected from observing a partially written file. -/
theorem spec_c2_save_writes_in_place (u : String) :
    salvar_dados_ops u =
      [FsOp.makedirs (get_caminho_usuario u),
       FsOp.writeFile (get_caminho_rendimentos u)] ∧
      usesTempThenRename (salvar_dados_ops u) (get_caminho_rendimentos u) = false := by
  constructor
  · rfl
  · simp [salvar_dados_ops, usesTempThenRename]

-- ======================= backup and claim C9 =======================

/-- Python `str.replace` on lists of characters: replace every
non-overlapping occurrence of `pat` (left to right) by `repl`.  The `Nat`
argument is recursion fuel; `pyReplace` below supplies the source length,
which always suffices because each step consumes at least one source
character. -/
def replaceAux (pat repl : List Char) : Nat → List Char → List Char
  | 0, l => l
  | _ + 1, [] => []
  | fuel + 1, c :: rest =>
    if pat ≠ [] ∧ List.take pat.length (c :: rest) = pat then
      repl ++ replaceAux pat repl fuel (List.drop pat.length (c :: rest))
    else
      c :: replaceAux pat repl fuel rest

/-- Python `caminho.replace(old, new)` for a non-empty `old`. -/
def pyReplace (s pat repl : String) : String :=
  ⟨replaceAux pat.data repl.data s.data.length s.data⟩

/-- The path of the timestamped backup copy (app.py lines 136-137):
`caminho_original.replace('.csv', '_backup_<timestamp>.csv')`.  Since
`'.csv'` contains no path separator, occurrences never span two segments, so
the string-level replace acts on each segment of the joined path
independently. -/
def backupPath (nome_usuario timestamp : String) : Path :=
  (get_caminho_rendimentos nome_usuario).map fun seg =>
    pyReplace seg ".csv" ("_backup_" ++ timestamp ++ ".csv")

/-- Function `GerenciadorDados.backup_dados` (app.py lines 130-144): if the user's
ledger file exists, read it and write an independent copy at the timestamped
backup path, returning `True`; otherwise do nothing and return `False`. -/
def backup_dados (s : Store) (nome_usuario timestamp : String) : Store × Bool :=
  match s (get_caminho_rendimentos nome_usuario) with
  | some df => (writeStore s (backupPath nome_usuario timestamp) df, true)
  | none => (s, false)

/-- Replacing `".csv"` inside the literal segment `"rendimentos.csv"`
rewrites exactly its suffix. -/
theorem replaceAux_rendimentos (repl : List Char) :
    replaceAux (".csv".data) repl ("rendimentos.csv".data.length)
        ("rendimentos.csv".data) = "rendimentos".data ++ repl := by
  simp +decide [replaceAux]

/-- The last segment of a backup path is never `"rendimentos.csv"`: the
replaced name is strictly longer. -/
theorem backupPath_last_ne (ts : String) :
    pyReplace "rendimentos.csv" ".csv" ("_backup_" ++ ts ++ ".csv") ≠
      "rendimentos.csv" := by
  unfold pyReplace
  intro h
  have hd : replaceAux (".csv".data) (("_backup_" ++ ts ++ ".csv").data)
      ("rendimentos.csv".data.length) ("rendimentos.csv".data) =
      "rendimentos.csv".data := congrArg String.data h
  rw [replaceAux_rendimentos] at hd
  have hlen := congrArg List.length hd
  simp [String.data_append] at hlen

/-- A backup path never coincides with any user's ledger path. -/
theorem backupPath_ne_rendimentos (u ts v : String) :
    backupPath u ts ≠ get_caminho_rendimentos v := by
  intro h
  unfold backupPath get_caminho_rendimentos at h
  simp [get_caminho_rendimentos, List.map_cons] at h
  exact backupPath_last_ne ts h.2.2

-- ======================= claim C9 =======================

/-- C9: multi-tenant isolation.  Each user name maps deterministically (it is
a function) to a private storage location, distinct from every other user's;
a save or a backup performed for `u` leaves `v`'s stored frame — and hence
`carregar_dados` for `v` — unchanged; and a load for `u` reads only `u`'s own
location: it returns the same result in any two stores that agree there. -/
theorem spec_c9_tenant_isolation (u v : String) (huv : u ≠ v) :
    get_caminho_rendimentos u ≠ get_caminho_rendimentos v ∧
      (∀ s df, carregar_dados (salvar_dados s u df).1 v = carregar_dados s v) ∧
      (∀ s ts, carregar_dados (backup_dados s u ts).1 v = carregar_dados s v) ∧
      (∀ s s' : Store,
        s (get_caminho_rendimentos u) = s' (get_caminho_rendimentos u) →
          carregar_dados s u = carregar_dados s' u) := by
  have hpath : get_caminho_rendimentos u ≠ get_caminho_rendimentos v := by
    intro h
    simp [get_caminho_rendimentos] at h
    exact huv h
  refine ⟨hpath, ?_, ?_, ?_⟩
  · intro s df
    unfold carregar_dados
    rw [show (salvar_dados s u df).1 (get_caminho_rendimentos v) =
        s (get_caminho_rendimentos v) from
      writeStore_other s _ _ _ (fun h => hpath h.symm)]
  · intro s ts
    have hb : (backup_dados s u ts).1 (get_caminho_rendimentos v) =
        s (get_caminho_rendimentos v) := by
      unfold backup_dados
      cases hs : s (get_caminho_rendimentos u) with
      | none => rfl
      | some df =>
        exact writeStore_other s _ _ _
          (fun h => backupPath_ne_rendimentos u ts v h.symm)
    unfold carregar_dados
    rw [hb]
  · intro s s' hagree
    unfold carregar_dados
    rw [hagree]

/-- Witness for C9 at the concrete distinct users alice and bob. -/
theorem spec_c9_witness :
    get_caminho_rendimentos "alice" ≠ get_caminho_rendimentos "bob" ∧
      (∀ s df, carregar_dados (salvar_dados s "alice" df).1 "bob" =
        carregar_dados s "bob") ∧
      (∀ s ts, carregar_dados (backup_dados s "alice" ts).1 "bob" =
        carregar_dados s "bob") ∧
      (∀ s s' : Store,
        s (get_caminho_rendimentos "alice") = s' (get_caminho_rendimentos "alice") →
          carregar_dados s "alice" = carregar_dados s' "alice") :=
  spec_c9_tenant_isolation "alice" "bob" (by decide)

-- ======================= aggregation engine =======================

/-- The contribution of a row to a pandas sum: NaN amounts are skipped,
i.e. contribute 0. -/
def valorOr0 (r : Row) : ℚ := r.valor.getD 0

/-- Pandas `df['Valor'].sum()`: the sum of the amounts of a list of rows, with NaN
skipped. -/
def somaValor (rows : List Row) : ℚ := (rows.map valorOr0).sum

/-- Pandas `df.groupby(key)['Valor'].sum()`: rows whose key is missing (NaT) are
dropped, the distinct keys are listed in ascending order (`le`), and the
amounts of each group are summed with NaN skipped. -/
def groupSumBy {K : Type} [DecidableEq K] (le : K → K → Bool)
    (key : Row → Option K) (rows : List Row) : List (K × ℚ) :=
  (((rows.filterMap key).dedup).insertionSort fun a b => le a b = true).map
    fun k => (k, somaValor (rows.filter fun r => decide (key r = some k)))

theorem somaValor_cons (r : Row) (l : List Row) :
    somaValor (r :: l) = valorOr0 r + somaValor l := by
  simp [somaValor]

/-- Splitting the rows along any Boolean predicate splits the sum. -/
theorem somaValor_filter_partition (p : Row → Bool) (l : List Row) :
    somaValor (l.filter p) + somaValor (l.filter fun r => !(p r)) = somaValor l := by
  induction l with
  | nil => simp [somaValor]
  | cons a t ih =>
    by_cases hp : p a
    · rw [List.filter_cons_of_pos hp, List.filter_cons_of_neg (by simp [hp]),
        somaValor_cons, somaValor_cons, add_assoc, ih]
    · rw [List.filter_cons_of_neg (by simp [hp]),
        List.filter_cons_of_pos (by simp [hp]),
        somaValor_cons, somaValor_cons, ← ih]
      ring

/-- Summing the per-group sums over any duplicate-free list of keys covering
all rows gives back the total sum. -/
theorem sum_over_groups {K : Type} [DecidableEq K] (key : Row → Option K) :
    ∀ (ks : List K) (rows : List Row), ks.Nodup →
      (∀ r ∈ rows, ∃ k, k ∈ ks ∧ key r = some k) →
      ((ks.map fun k =>
        somaValor (rows.filter fun r => decide (key r = some k))).sum
          = somaValor rows) := by
  intro ks
  induction ks with
  | nil =>
    intro rows _ hcov
    have hrows : rows = [] := by
      cases rows with
      | nil => rfl
      | cons a t =>
        obtain ⟨k, hk, _⟩ := hcov a (by simp)
        exact absurd hk (List.not_mem_nil k)
    subst hrows
    simp [somaValor]
  | cons k ks ih =>
    intro rows hnd hcov
    obtain ⟨hk_not, hnd'⟩ := List.nodup_cons.mp hnd
    rw [List.map_cons, List.sum_cons]
    have hsplit : ∀ k' ∈ ks,
        (rows.filter fun r => decide (key r = some k')) =
          ((rows.filter fun r => !(decide (key r = some k))).filter
            fun r => decide (key r = some k')) := by
      intro k' hk'
      rw [List.filter_filter]
      apply List.filter_congr
      intro r _
      by_cases hkey : key r = some k'
      · have hk'k : ¬ k' = k := fun hc => hk_not (hc ▸ hk')
        simp [hkey, hk'k]
      · simp [hkey]
    have hmap : (ks.map fun k' =>
        somaValor (rows.filter fun r => decide (key r = some k'))) =
        (ks.map fun k' =>
          somaValor (((rows.filter fun r => !(decide (key r = some k))).filter
            fun r => decide (key r = some k')))) :=
      List.map_congr_left fun k' hk' => congrArg somaValor (hsplit k' hk')
    rw [hmap, ih (rows.filter fun r => !(decide (key r = some k))) hnd' ?_]
    · exact somaValor_filter_partition _ rows
    · intro r hr
      obtain ⟨k0, hk0, hkey0⟩ := hcov r (List.mem_filter.mp hr).1
      rcases List.mem_cons.mp hk0 with h0 | h0
      · exfalso
        have := (List.mem_filter.mp hr).2
        rw [h0] at hkey0
        simp [hkey0] at this
      · exact ⟨k0, h0, hkey0⟩

/-- Conservation of the total for any groupby-sum whose key is present on
every row. -/
theorem groupSumBy_total {K : Type} [DecidableEq K] (le : K → K → Bool)
    (key : Row → Option K) (rows : List Row)
    (h : ∀ r ∈ rows, (key r).isSome) :
    ((groupSumBy le key rows).map Prod.snd).sum = somaValor rows := by
  unfold groupSumBy
  rw [List.map_map]
  have hcomp : (Prod.snd ∘ fun k =>
      (k, somaValor (rows.filter fun r => decide (key r = some k)))) =
      fun k => somaValor (rows.filter fun r => decide (key r = some k)) := rfl
  rw [hcomp]
  have hperm := List.perm_insertionSort
    (fun a b => le a b = true) ((rows.filterMap key).dedup)
  apply sum_over_groups key _ rows (hperm.symm.nodup (List.nodup_dedup _))
  intro r hr
  obtain ⟨k, hk⟩ := Option.isSome_iff_exists.mp (h r hr)
  exact ⟨k, hperm.mem_iff.mpr (List.mem_dedup.mpr
    (List.mem_filterMap.mpr ⟨r, hr, hk⟩)), hk⟩

/-- Ascending Boolean order on (year, number) pairs. -/
def natPairLe (a b : Nat × Nat) : Bool :=
  decide (a.1 < b.1) || (decide (a.1 = b.1) && decide (a.2 ≤ b.2))

/-- The daily rollup `df.groupby('Data')['Valor'].sum()` of
`analises_avancadas` (app.py line 666): one bucket per distinct date, in
ascending date order. -/
def diario (df : DataFrame) : List (Date × ℚ) :=
  groupSumBy dateLe (fun r => r.data) df.rows

/-- The monthly rollup `df.groupby(df['Data'].dt.to_period('M'))['Valor'].sum()`
of `tendencia_mensal` (app.py line 221): one bucket per calendar
(year, month). -/
def mensal (df : DataFrame) : List ((Nat × Nat) × ℚ) :=
  groupSumBy natPairLe (fun r => r.data.map fun d => (d.year, d.month)) df.rows

/-- Gregorian leap year. -/
def bissexto (y : Nat) : Bool :=
  (y % 4 == 0 && y % 100 != 0) || y % 400 == 0

/-- Days in a month of the Gregorian calendar. -/
def diasNoMes (y m : Nat) : Nat :=
  if m = 2 then (if bissexto y then 29 else 28)
  else if m = 4 ∨ m = 6 ∨ m = 9 ∨ m = 11 then 30
  else 31

/-- Ordinal day of the year (1 for January 1st). -/
def diaDoAno (d : Date) : Nat :=
  (((List.range (d.month - 1)).map fun i => diasNoMes d.year (i + 1)).sum) + d.day

/-- Day count in the proleptic Gregorian calendar (0001-01-01 is day 1). -/
def numeroDia (d : Date) : Nat :=
  365 * (d.year - 1) + (d.year - 1) / 4 - (d.year - 1) / 100 + (d.year - 1) / 400
    + diaDoAno d

/-- ISO weekday: Monday = 1 .. Sunday = 7 (0001-01-01 was a Monday). -/
def diaDaSemana (d : Date) : Nat := (numeroDia d - 1) % 7 + 1

/-- Number of ISO weeks in a year: 53 when January 1st falls on Thursday, or
on Wednesday in a leap year; otherwise 52. -/
def semanasISO (y : Nat) : Nat :=
  if diaDaSemana ⟨y, 1, 1⟩ = 4 ∨ (bissexto y = true ∧ diaDaSemana ⟨y, 1, 1⟩ = 3)
  then 53 else 52

/-- The (ISO year, ISO week-of-year) bucket of a date. -/
def isoAnoSemana (d : Date) : Nat × Nat :=
  let w : Int := (10 + (diaDoAno d : Int) - (diaDaSemana d : Int)) / 7
  if w < 1 then (d.year - 1, semanasISO (d.year - 1))
  else if w > (semanasISO d.year : Int) then (d.year + 1, 1)
  else (d.year, w.toNat)

/-- Modelled from the spec: the weekly rollup.  The corpus code that computes
it is not present under `src/` (src/app.py is truncated before the weekly
report), so this follows the spec's words: group by ISO week-of-year — not
week-of-month — summing the amounts of each bucket, with week 1 of year N and
week 53 of year N−1 kept as distinct buckets (the bucket key is the
(ISO year, ISO week) pair). -/
def semanal (df : DataFrame) : List ((Nat × Nat) × ℚ) :=
  groupSumBy natPairLe (fun r => r.data.map isoAnoSemana) df.rows

-- ======================= claim C5 =======================

/-- First scenario row: 2024-01-05, amount 100.00. -/
def rowJan5a : Row := ⟨some ⟨2024, 1, 5⟩, some 100, "Salario", ""⟩

/-- Second scenario row: 2024-01-05, amount 50.00. -/
def rowJan5b : Row := ⟨some ⟨2024, 1, 5⟩, some 50, "Vendas", ""⟩

/-- The two-row scenario ledger of the spec. -/
def frameJan5 : DataFrame := ⟨true, true, [rowJan5a, rowJan5b]⟩

/-- The daily rollup of the scenario ledger, evaluated. -/
theorem diario_frameJan5 : diario frameJan5 = [(⟨2024, 1, 5⟩, 150)] := by
  have hkeys : ((frameJan5.rows.filterMap fun r => r.data).dedup).insertionSort
      (fun a b => dateLe a b = true) = [⟨2024, 1, 5⟩] := by decide
  unfold diario groupSumBy
  rw [hkeys]
  simp +decide [somaValor, valorOr0, frameJan5, rowJan5a, rowJan5b]
  norm_num

/-- C5: aggregation conserves the total: for every ledger whose rows all have
a parsed date, the bucket totals of the daily, weekly and monthly rollups
each sum to the ledger's total amount; and the concrete two-record scenario
(2024-01-05 with amounts 100.00 and 50.00) yields exactly one daily bucket
with total 150.00. -/
theorem spec_c5_aggregation_conserves (df : DataFrame)
    (h : ∀ r ∈ df.rows, (r.data).isSome) :
    ((diario df).map Prod.snd).sum = somaValor df.rows ∧
      ((semanal df).map Prod.snd).sum = somaValor df.rows ∧
      ((mensal df).map Prod.snd).sum = somaValor df.rows ∧
      diario frameJan5 = [(⟨2024, 1, 5⟩, 150)] := by
  refine ⟨groupSumBy_total _ _ _ h,
    groupSumBy_total _ _ _ ?_, groupSumBy_total _ _ _ ?_, diario_frameJan5⟩
  · intro r hr
    simp only [Option.isSome_map']
    exact h r hr
  · intro r hr
    simp only [Option.isSome_map']
    exact h r hr

/-- Witness for C5 at the concrete scenario ledger. -/
theorem spec_c5_witness :
    (∀ r ∈ frameJan5.rows, (r.data).isSome) ∧
      (((diario frameJan5).map Prod.snd).sum = somaValor frameJan5.rows ∧
        ((semanal frameJan5).map Prod.snd).sum = somaValor frameJan5.rows ∧
        ((mensal frameJan5).map Prod.snd).sum = somaValor frameJan5.rows ∧
        diario frameJan5 = [(⟨2024, 1, 5⟩, 150)]) :=
  ⟨by decide, spec_c5_aggregation_conserves frameJan5 (by decide)⟩

-- ======================= claim C10 =======================

/-- The dictionary `calcular_estatisticas` returns. -/
structure Estatisticas where
  total_registros : Nat
  total_valor : ℚ
  media_diaria : ℚ
  maior_valor : ℚ
  menor_valor : ℚ
  primeiro_registro : Option Date
  ultimo_registro : Option Date
deriving DecidableEq, Repr

/-- The zero dictionary returned for an empty or fully-NaN frame
(app.py lines 179-187 and 195-203). -/
def estatisticasVazias : Estatisticas := ⟨0, 0, 0, 0, 0, none, none⟩

/-- Maximum of a list of amounts (pandas `.max()`, NaN-free input). -/
def maxQ : List ℚ → ℚ
  | [] => 0
  | x :: xs => xs.foldl max x

/-- Minimum of a list of amounts (pandas `.min()`, NaN-free input). -/
def minQ : List ℚ → ℚ
  | [] => 0
  | x :: xs => xs.foldl min x

/-- Earliest of a list of dates (pandas `.min()` on datetimes, NaT skipped by
the caller; NaT result for an empty input is modelled as `none`). -/
def minData : List Date → Option Date
  | [] => none
  | x :: xs => some (xs.foldl (fun a b => if dateLe b a then b else a) x)

/-- Latest of a list of dates (pandas `.max()` on datetimes). -/
def maxData : List Date → Option Date
  | [] => none
  | x :: xs => some (xs.foldl (fun a b => if dateLe a b then b else a) x)

/-- Function `AnalisadorDados.calcular_estatisticas` (app.py lines 176-213): an empty
frame yields the zero dictionary; otherwise the `Valor` column is re-coerced
(identity here) and rows with NaN amounts dropped; if nothing remains the
zero dictionary is returned, else the count, sum, mean, max and min of the
amounts and the earliest and latest dates. -/
def calcular_estatisticas (df : DataFrame) : Estatisticas :=
  if df.rows.isEmpty then estatisticasVazias
  else
    let rows2 := df.rows.filter fun r => r.valor.isSome
    if rows2.isEmpty then estatisticasVazias
    else
      let vals := rows2.filterMap Row.valor
      { total_registros := rows2.length
        total_valor := vals.sum
        media_diaria := vals.sum / (rows2.length : ℚ)
        maior_valor := maxQ vals
        menor_valor := minQ vals
        primeiro_registro := minData (rows2.filterMap Row.data)
        ultimo_registro := maxData (rows2.filterMap Row.data) }

/-- C10: the statistics computation is total on the empty edge case: a frame
with zero rows, or all of whose rows have an unparseable (NaN) amount, yields
the dictionary with zero count, zero totals and `None` first/last record,
with no failure and no division by zero. -/
theorem spec_c10_empty_statistics (df : DataFrame)
    (h : ∀ r ∈ df.rows, r.valor = none) :
    calcular_estatisticas df = estatisticasVazias ∧
      estatisticasVazias =
        ⟨0, (0 : ℚ), (0 : ℚ), (0 : ℚ), (0 : ℚ), none, none⟩ := by
  refine ⟨?_, rfl⟩
  unfold calcular_estatisticas
  by_cases he : df.rows.isEmpty
  · rw [if_pos he]
  · rw [if_neg he]
    have h2 : (df.rows.filter fun r => r.valor.isSome) = [] := by
      rw [List.filter_eq_nil_iff]
      intro a ha
      simp [h a ha]
    dsimp only
    rw [h2]
    rfl

/-- A row with a valid date but a NaN amount. -/
def rowNaN : Row := ⟨some ⟨2024, 1, 5⟩, none, "Outros", ""⟩

/-- Witness for C10 at a concrete one-row frame with a NaN amount. -/
theorem spec_c10_witness :
    (∀ r ∈ (⟨true, true, [rowNaN]⟩ : DataFrame).rows, r.valor = none) ∧
      (calcular_estatisticas ⟨true, true, [rowNaN]⟩ = estatisticasVazias ∧
        estatisticasVazias =
          ⟨0, (0 : ℚ), (0 : ℚ), (0 : ℚ), (0 : ℚ), none, none⟩) :=
  ⟨by decide, spec_c10_empty_statistics ⟨true, true, [rowNaN]⟩ (by decide)⟩

end Rendimento
